import Mathlib

/-!
Shallow embedding of the Unsplash Dify plugin (stvlynn/Unsplash-Dify-Plugin).

Source files embedded:
  * src/tools/unsplash.py   (UnsplashTool: parameter validation, photo
    normalisation, search `_invoke` event stream)
  * src/tools/random.py     (UnsplashRandomTool: same shape, random endpoint)
  * src/provider/unsplash.py (UnsplashProvider credential validation)

Python's loosely typed values are modelled by `PyVal`; `dict.get(k)` /
`dict.get(k, default)` keep their exact Python semantics (a key that is
present with value `None` yields `None`, not the default), calling `.get`
on a non-dict value is an `AttributeError` modelled through `Except`, and
the generator `_invoke` bodies become pure functions from the tool
parameters plus an HTTP-oracle environment to the list of emitted
messages.  Floats are modelled as rationals (IEEE NaN/inf and CPython's
float repr are not modelled; no claim exercises them), and `str()` of a
container is abbreviated to a placeholder since no adapter code path that
the claims exercise interpolates a container into a message string.
-/

/-- A Python runtime value, as far as the adapter manipulates them. -/
inductive PyVal where
  | none
  | bool (b : Bool)
  | int (n : Int)
  | float (q : Rat)
  | str (s : String)
  | list (xs : List PyVal)
  | dict (entries : List (String × PyVal))
deriving Repr

/-- Python dict lookup: `some v` when the key is present (even with value
`None`), `Option.none` when absent. -/
def dictGet (entries : List (String × PyVal)) (k : String) : Option PyVal :=
  (entries.find? (fun p => p.1 == k)).map Prod.snd

/-- Python `d.get(k, default)` on a dict known to be a dict. -/
def pyGetD (entries : List (String × PyVal)) (k : String) (d : PyVal) : PyVal :=
  (dictGet entries k).getD d

/-- Python `d.get(k)` (default `None`) on a dict known to be a dict. -/
def pyGet (entries : List (String × PyVal)) (k : String) : PyVal :=
  pyGetD entries k PyVal.none

/-- Python type name, used to render `AttributeError` messages. -/
def pyTypeName : PyVal → String
  | .none => "NoneType"
  | .bool _ => "bool"
  | .int _ => "int"
  | .float _ => "float"
  | .str _ => "str"
  | .list _ => "list"
  | .dict _ => "dict"

/-- `v.get(k, d)`: succeeds on dicts, raises `AttributeError` otherwise
(exactly what CPython does for `photo.get('urls', {}).get('raw')` when
`urls` holds a non-dict value). -/
def pyAttrGetD (v : PyVal) (k : String) (d : PyVal) : Except String PyVal :=
  match v with
  | .dict es => .ok (pyGetD es k d)
  | w => .error ("'" ++ pyTypeName w ++ "' object has no attribute 'get'")

/-- `v.get(k)` with Python's `None` default. -/
def pyAttrGet (v : PyVal) (k : String) : Except String PyVal :=
  pyAttrGetD v k PyVal.none

/-- Python truthiness (`if x:`). -/
def pyTruthy : PyVal → Bool
  | .none => false
  | .bool b => b
  | .int n => n != 0
  | .float q => q != 0
  | .str s => s != ""
  | .list xs => !xs.isEmpty
  | .dict es => !es.isEmpty

/-- `isinstance(v, (int, float))`; `bool` is a subtype of `int` in Python. -/
def pyIsNumeric : PyVal → Bool
  | .int _ => true
  | .float _ => true
  | .bool _ => true
  | _ => false

/-- Numeric value of an int/float/bool (callers guard with `pyIsNumeric`). -/
def pyToRat : PyVal → Rat
  | .int n => n
  | .float q => q
  | .bool b => if b then 1 else 0
  | _ => 0

/-- Python `int()` truncation toward zero on a rational. -/
def ratTrunc (q : Rat) : Int :=
  q.num.tdiv q.den

/-- Python `int(v)` for the numeric values that reach it after validation. -/
def pyToInt : PyVal → Int
  | .int n => n
  | .float q => ratTrunc q
  | .bool b => if b then 1 else 0
  | _ => 0

/-- Python `str(v)` for the scalar values the adapter interpolates into
f-strings.  Container and float reprs are abbreviated (no claim path
interpolates them). -/
def pyStr : PyVal → String
  | .none => "None"
  | .bool true => "True"
  | .bool false => "False"
  | .int n => toString n
  | .float q => toString q
  | .str s => s
  | .list _ => "<list>"
  | .dict _ => "<dict>"

/-- Lookup a field of a (normalised) record value; `None` when the value is
not a dict or the key is absent. -/
def recGet (v : PyVal) (k : String) : PyVal :=
  match v with
  | .dict es => pyGet es k
  | _ => PyVal.none

/-- Nested record lookup (e.g. the `regular` entry of the `urls` group). -/
def recGet2 (v : PyVal) (sec k : String) : PyVal :=
  recGet (recGet v sec) k

/-- Length of a Python list value (0 for non-lists; used only on lists). -/
def listLen : PyVal → Nat
  | .list xs => xs.length
  | _ => 0

/-- One message yielded by a tool `_invoke` generator: the four
`ToolInvokeMessage` kinds the adapter produces.  Blob metadata keeps the
fields the code sets (`mime_type`, `filename`, `description`). -/
inductive Msg where
  | text (s : String)
  | json (v : PyVal)
  | blob (data : String) (mime : String) (filename : String) (description : PyVal)
  | var (name : String) (v : PyVal)
deriving Repr

/-- Is this a text message? -/
def Msg.isText : Msg → Bool
  | .text _ => true
  | _ => false

/-- Is this a blob message? -/
def Msg.isBlob : Msg → Bool
  | .blob _ _ _ _ => true
  | _ => false

/-- Is this a JSON message? -/
def Msg.isJson : Msg → Bool
  | .json _ => true
  | _ => false

/-- The JSON payloads of a message stream, in order. -/
def jsonPayloads (msgs : List Msg) : List PyVal :=
  msgs.filterMap (fun m => match m with | .json v => some v | _ => Option.none)

/-!  ## Parameter validation (src/tools/unsplash.py lines 27-44,
src/tools/random.py lines 27-39).

`UnsplashTool._validate_parameters` / `UnsplashRandomTool._validate_parameters`
raise `ValueError` exactly when the Python conditions hold; the `Except`
error carries `str(e)`. -/

/-- Python `s.strip()`: drop leading and trailing whitespace. -/
def pyStrip (s : String) : String :=
  ⟨((s.data.dropWhile Char.isWhitespace).reverse.dropWhile Char.isWhitespace).reverse⟩

/-- The numeric range check shared by both tools:
`not isinstance(v, (int, float)) or v <= 0 or v > 30`. -/
def rangeCheckFails (v : PyVal) : Bool :=
  !pyIsNumeric v || decide (pyToRat v ≤ 0) || decide (30 < pyToRat v)

/-- `UnsplashTool._validate_parameters` (src/tools/unsplash.py 27-44). -/
def validateSearchParams (params : List (String × PyVal)) : Except String Unit :=
  let query := pyGet params "query"
  if !pyTruthy query
      || !(match query with | .str _ => true | _ => false)
      || decide ((pyStrip (match query with | .str s => s | _ => "")).length = 0) then
    .error "Search query cannot be empty"
  else
    let per_page := pyGetD params "per_page" (.int 10)
    if rangeCheckFails per_page then
      .error "Results per page must be an integer between 1 and 30"
    else
      .ok ()

/-- `UnsplashRandomTool._validate_parameters` (src/tools/random.py 27-39). -/
def validateRandomParams (params : List (String × PyVal)) : Except String Unit :=
  let count := pyGetD params "count" (.int 1)
  if rangeCheckFails count then
    .error "Photo count must be an integer between 1 and 30"
  else
    .ok ()

/-!  ## Photo normalisation (`_build_photo_object`,
src/tools/unsplash.py 46-85 and the identical src/tools/random.py 41-80).

The Python dict literal evaluates its values in order; the repeated
`photo.get('urls', {})` / `photo.get('user', {})` / `photo.get('links', {})`
lookups are pure and therefore hoisted into a single lookup each.  Any
`.get` on a non-dict value is the `AttributeError` the CPython code would
raise at the same point. -/

/-- `_build_photo_object(photo)`. -/
def buildPhotoObject (photo : PyVal) : Except String PyVal := do
  let idv ← pyAttrGet photo "id"
  let desc ← pyAttrGet photo "description"
  let altd ← pyAttrGet photo "alt_description"
  let width ← pyAttrGet photo "width"
  let height ← pyAttrGet photo "height"
  let color ← pyAttrGet photo "color"
  let likes ← pyAttrGet photo "likes"
  let created ← pyAttrGet photo "created_at"
  let updated ← pyAttrGet photo "updated_at"
  let urlsV ← pyAttrGetD photo "urls" (.dict [])
  let uraw ← pyAttrGet urlsV "raw"
  let ufull ← pyAttrGet urlsV "full"
  let ureg ← pyAttrGet urlsV "regular"
  let usmall ← pyAttrGet urlsV "small"
  let uthumb ← pyAttrGet urlsV "thumb"
  let userV ← pyAttrGetD photo "user" (.dict [])
  let uid ← pyAttrGet userV "id"
  let uname ← pyAttrGet userV "name"
  let uusername ← pyAttrGet userV "username"
  let uport ← pyAttrGet userV "portfolio_url"
  let uprof ← pyAttrGet userV "profile_image"
  let linksV ← pyAttrGetD photo "links" (.dict [])
  let lself ← pyAttrGet linksV "self"
  let lhtml ← pyAttrGet linksV "html"
  let ldown ← pyAttrGet linksV "download"
  let ldl ← pyAttrGet linksV "download_location"
  return .dict [("id", idv), ("description", desc), ("alt_description", altd),
    ("width", width), ("height", height), ("color", color), ("likes", likes),
    ("created_at", created), ("updated_at", updated),
    ("urls", .dict [("raw", uraw), ("full", ufull), ("regular", ureg),
      ("small", usmall), ("thumb", uthumb)]),
    ("user", .dict [("id", uid), ("name", uname), ("username", uusername),
      ("portfolio_url", uport), ("profile_image", uprof)]),
    ("links", .dict [("self", lself), ("html", lhtml), ("download", ldown),
      ("download_location", ldl)])]

/-- The value `photo.get(sec, {}).get(k)` takes when `photo` is the dict
`es` and the section lookup does not raise: the section's entry when the
section is a present dict, `None` otherwise. -/
def subGet (es : List (String × PyVal)) (sec k : String) : PyVal :=
  match pyGetD es sec (.dict []) with
  | .dict ss => pyGet ss k
  | _ => PyVal.none

/-- The PhotoRecord `_build_photo_object` returns on a dict input whose
nested sections (when present) are dicts: every schema field carries the
upstream value when present and `None` when absent. -/
def photoRecordOf (es : List (String × PyVal)) : PyVal :=
  .dict [("id", pyGet es "id"), ("description", pyGet es "description"),
    ("alt_description", pyGet es "alt_description"),
    ("width", pyGet es "width"), ("height", pyGet es "height"),
    ("color", pyGet es "color"), ("likes", pyGet es "likes"),
    ("created_at", pyGet es "created_at"), ("updated_at", pyGet es "updated_at"),
    ("urls", .dict [("raw", subGet es "urls" "raw"),
      ("full", subGet es "urls" "full"), ("regular", subGet es "urls" "regular"),
      ("small", subGet es "urls" "small"), ("thumb", subGet es "urls" "thumb")]),
    ("user", .dict [("id", subGet es "user" "id"), ("name", subGet es "user" "name"),
      ("username", subGet es "user" "username"),
      ("portfolio_url", subGet es "user" "portfolio_url"),
      ("profile_image", subGet es "user" "profile_image")]),
    ("links", .dict [("self", subGet es "links" "self"),
      ("html", subGet es "links" "html"), ("download", subGet es "links" "download"),
      ("download_location", subGet es "links" "download_location")])]

/-- A nested section of a photo dict is well formed when absent or a dict
(a present `None` or other non-dict value makes `.get` raise). -/
def nestedOkB (es : List (String × PyVal)) (k : String) : Bool :=
  match dictGet es k with
  | Option.none => true
  | some (.dict _) => true
  | some _ => false

/-- A photo value is well formed when it is a dict whose `urls`, `user`
and `links` entries, when present, are dicts. -/
def wellFormedPhoto (v : PyVal) : Bool :=
  match v with
  | .dict es => nestedOkB es "urls" && nestedOkB es "user" && nestedOkB es "links"
  | _ => false

/-- The per-photo detail path additionally reads
`photo.get('user', {}).get('links', {}).get('html', '')`, so the `links`
entry of the `user` section must also be absent-or-dict for the loop body
not to raise. -/
def userLinksOkB (v : PyVal) : Bool :=
  match v with
  | .dict es =>
    match dictGet es "user" with
    | some (.dict us) => nestedOkB us "links"
    | _ => true
  | _ => false

/-- Photos for which the whole per-photo loop body stays exception free. -/
def photoLoopSafe (v : PyVal) : Bool :=
  wellFormedPhoto v && userLinksOkB v

/-!  ## Per-photo loop body (src/tools/unsplash.py 200-253,
src/tools/random.py 190-243).

The two loops are textually identical except for the filename prefix
(`unsplash_` vs `unsplash_random_`), so the body is parameterised by that
prefix.  The download oracle maps the image-URL value to either the bytes
(as an opaque string) or `str(e)` of the raised exception.  A generator
keeps the messages it yielded before an exception, so the inner-try model
returns the messages emitted so far together with the optional
photo-detail. -/

/-- `description = photo.get('description') or photo.get('alt_description')
or f"Photo by {photo.get('user', {}).get('name', 'Unknown')}"`, with
Python's short-circuit evaluation (the user lookup only runs when both
descriptions are falsy, and raises when `user` is a present non-dict). -/
def descriptionOf (photo : PyVal) : Except String PyVal := do
  let d1 ← pyAttrGet photo "description"
  if pyTruthy d1 then
    return d1
  else
    let d2 ← pyAttrGet photo "alt_description"
    if pyTruthy d2 then
      return d2
    else
      let userV ← pyAttrGetD photo "user" (.dict [])
      let nameD ← pyAttrGetD userV "name" (.str "Unknown")
      return .str ("Photo by " ++ pyStr nameD)

/-- The `photo_detail` dict built after a successful blob emission
(src/tools/unsplash.py 233-249).  The repeated `photo.get('user', {})`
lookup is hoisted; the traversals fail exactly where CPython would. -/
def detailOf (photo : PyVal) (description : PyVal) : Except String PyVal := do
  let userV ← pyAttrGetD photo "user" (.dict [])
  let userName ← pyAttrGetD userV "name" (.str "Unknown")
  let linksU ← pyAttrGetD userV "links" (.dict [])
  let userLink ← pyAttrGetD linksU "html" (.str "")
  let linksP ← pyAttrGetD photo "links" (.dict [])
  let photoLink ← pyAttrGetD linksP "html" (.str "")
  let w ← pyAttrGetD photo "width" (.str "Unknown")
  let h ← pyAttrGetD photo "height" (.str "Unknown")
  return .dict [("id", ← pyAttrGet photo "id"), ("description", description),
    ("dimensions", .str (pyStr w ++ "x" ++ pyStr h)),
    ("author", userName), ("photo_link", photoLink), ("user_link", userLink),
    ("license", .str "Unsplash License - https://unsplash.com/license")]

/-- The inner `try`/`except` around one image download: the emitted
messages (error text on failure, blob first otherwise) and the optional
photo-detail.  `prefix_` is `"unsplash_"` for search and
`"unsplash_random_"` for random. -/
def attemptDownload (prefix_ : String) (download : PyVal → Except String String)
    (photo : PyVal) (imageUrl : PyVal) : List Msg × Option PyVal :=
  match download imageUrl with
  | .error e => ([.text ("Failed to process image: " ++ e)], Option.none)
  | .ok imageData =>
    match descriptionOf photo with
    | .error e => ([.text ("Failed to process image: " ++ e)], Option.none)
    | .ok description =>
      match pyAttrGetD photo "id" (.str "photo") with
      | .error e => ([.text ("Failed to process image: " ++ e)], Option.none)
      | .ok photoId =>
        let blobMsg := Msg.blob imageData "image/jpeg"
          (prefix_ ++ pyStr photoId ++ ".jpg") description
        match detailOf photo description with
        | .error e => ([blobMsg, .text ("Failed to process image: " ++ e)], Option.none)
        | .ok detail => ([blobMsg], some detail)

/-- The whole `for photo in results:` loop: the messages it yields and
either the accumulated `(photos, photo_details)` lists or the exception
that escaped to the outer handler (messages yielded before the exception
are kept). -/
def processResults (prefix_ : String) (download : PyVal → Except String String) :
    List PyVal → List Msg × Except String (List PyVal × List PyVal)
  | [] => ([], .ok ([], []))
  | photo :: rest =>
    match buildPhotoObject photo with
    | .error e => ([], .error e)
    | .ok record =>
      match (do pyAttrGet (← pyAttrGetD photo "urls" (.dict [])) "regular" :
          Except String PyVal) with
      | .error e => ([], .error e)
      | .ok imageUrl =>
        let step :=
          if pyTruthy imageUrl then attemptDownload prefix_ download photo imageUrl
          else ([], Option.none)
        match processResults prefix_ download rest with
        | (evsRest, .error e) => (step.1 ++ evsRest, .error e)
        | (evsRest, .ok (ps, ds)) =>
          (step.1 ++ evsRest,
           .ok (record :: ps,
                match step.2 with
                | some d => d :: ds
                | Option.none => ds))

/-!  ## Search `_invoke` (src/tools/unsplash.py 105-301).

The environment holds the outcome of the one metadata request
(`requests.get` + `raise_for_status` + `.json()`, collapsed into either a
`RequestException` message or the parsed JSON object — the search endpoint
returns a JSON object on success) and the download oracle.  Credentials
are read but only feed the request header, which the oracle abstracts. -/

/-- Outcome of the primary search request plus the download oracle. -/
structure SearchEnv where
  response : Except String (List (String × PyVal))
  download : PyVal → Except String String

/-- The failure events each `except` branch of the search tool yields
(text, JSON with only the error field, empty `photos`, zero
`total_results`). -/
def searchFailureEvents (msg : String) : List Msg :=
  [.text msg, .json (.dict [("error", .str msg)]),
   .var "photos" (.list []), .var "total_results" (.int 0)]

/-- The `search_params` fragment of the summary text
(src/tools/unsplash.py 164-168). -/
def searchParamsText (query orientation color : PyVal) : String :=
  "query='" ++ pyStr query ++ "'"
    ++ (if pyTruthy orientation then ", orientation='" ++ pyStr orientation ++ "'" else "")
    ++ (if pyTruthy color then ", color='" ++ pyStr color ++ "'" else "")

/-- The JSON message of the no-results branch (src/tools/unsplash.py 180-191). -/
def searchEmptyJson (query : PyVal) (per_page : Int) (orientation color : PyVal) : PyVal :=
  .dict [("photos", .list []), ("total", .int 0), ("total_pages", .int 0),
    ("error", PyVal.none),
    ("search_parameters", .dict [("query", query), ("per_page", .int per_page),
      ("orientation", orientation), ("color", color)])]

/-- The final JSON message of a successful search (src/tools/unsplash.py 256-268). -/
def searchResultJson (photos : List PyVal) (total total_pages : PyVal) (query : PyVal)
    (per_page : Int) (orientation color : PyVal) (details : List PyVal) : PyVal :=
  .dict [("photos", .list photos), ("total", total), ("total_pages", total_pages),
    ("error", PyVal.none),
    ("search_parameters", .dict [("query", query), ("per_page", .int per_page),
      ("orientation", orientation), ("color", color)]),
    ("photo_details", .list details)]

/-- Python `total > 0` (TypeError unless numeric). -/
def pyGtZero : PyVal → Except String Bool
  | .int n => .ok (decide (0 < n))
  | .float q => .ok (decide (0 < q))
  | .bool b => .ok b
  | v => .error ("'>' not supported between instances of '" ++ pyTypeName v
      ++ "' and 'int'")

/-- Python `len(v)` (TypeError on unsized values). -/
def pyLen : PyVal → Except String Nat
  | .list xs => .ok xs.length
  | .str s => .ok s.length
  | .dict es => .ok es.length
  | v => .error ("object of type '" ++ pyTypeName v ++ "' has no len()")

/-- Python `for photo in v:` (TypeError on non-iterables). -/
def pyIterate : PyVal → Except String (List PyVal)
  | .list xs => .ok xs
  | .str s => .ok (s.toList.map (fun c => .str (String.singleton c)))
  | .dict es => .ok (es.map (fun p => .str p.1))
  | v => .error ("'" ++ pyTypeName v ++ "' object is not iterable")

/-- The body of the search `try` block after the request succeeded:
the messages yielded plus the exception (if any) that reaches the outer
generic handler. -/
def searchBody (query : PyVal) (per_page : Int) (orientation color : PyVal)
    (download : PyVal → Except String String) (data : List (String × PyVal)) :
    List Msg × Except String Unit :=
  let results := pyGetD data "results" (.list [])
  let total := pyGetD data "total" (.int 0)
  let total_pages := pyGetD data "total_pages" (.int 0)
  let sp := searchParamsText query orientation color
  match pyGtZero total with
  | .error e => ([], .error e)
  | .ok pos =>
    match (if pos then
             (pyLen results).map (fun n =>
               "Found " ++ pyStr total ++ " photos for " ++ sp ++ ". Showing "
                 ++ toString n ++ " results.")
           else
             .ok ("No photos found for " ++ sp ++ ". Please try different keywords.")) with
    | .error e => ([], .error e)
    | .ok summary =>
      if !pyTruthy results then
        ([.text summary, .json (searchEmptyJson query per_page orientation color),
          .var "photos" (.list []), .var "total_results" (.int 0)], .ok ())
      else
        match pyIterate results with
        | .error e => ([.text summary], .error e)
        | .ok photoList =>
          match processResults "unsplash_" download photoList with
          | (evs, .error e) => (.text summary :: evs, .error e)
          | (evs, .ok (photos, details)) =>
            (.text summary :: evs
              ++ [.json (searchResultJson photos total total_pages query per_page
                    orientation color details),
                  .var "photos" (.list photos),
                  .var "photo_details" (.list details),
                  .var "total_results" total], .ok ())

/-- `UnsplashTool._invoke` (src/tools/unsplash.py 105-301): the full
ordered message stream of one invocation.  Every exception is caught by
one of the three `except` branches, so the function is total — nothing
escapes to the host. -/
def searchInvoke (params : List (String × PyVal)) (env : SearchEnv) : List Msg :=
  match validateSearchParams params with
  | .error e => searchFailureEvents ("Parameter error: " ++ e)
  | .ok _ =>
    let query := pyGet params "query"
    let per_page : Int := min (pyToInt (pyGetD params "per_page" (.int 10))) 30
    let orientation := pyGet params "orientation"
    let color := pyGet params "color"
    match env.response with
    | .error e => searchFailureEvents ("Unsplash API request error: " ++ e)
    | .ok data =>
      match searchBody query per_page orientation color env.download data with
      | (evs, .ok _) => evs
      | (evs, .error e) => evs ++ searchFailureEvents ("Error searching Unsplash: " ++ e)

/-!  ## Random `_invoke` (src/tools/random.py 100-285).

The random endpoint may return a single JSON object or a list, so the
environment's response body is a raw `PyVal`.  The loop is the shared
`processResults` with prefix `"unsplash_random_"`; the failure branches
reset only `random_photos` (there is no `total_results` variable). -/

/-- Outcome of the primary random-photo request plus the download oracle. -/
structure RandomEnv where
  response : Except String PyVal
  download : PyVal → Except String String

/-- The failure events each `except` branch of the random tool yields. -/
def randomFailureEvents (msg : String) : List Msg :=
  [.text msg, .json (.dict [("error", .str msg)]),
   .var "random_photos" (.list [])]

/-- The `param_str` fragment of the random summary text
(src/tools/random.py 159-167). -/
def randomParamsText (query orientation color : PyVal) : String :=
  let parts :=
    (if pyTruthy query then ["query='" ++ pyStr query ++ "'"] else [])
      ++ (if pyTruthy orientation then ["orientation='" ++ pyStr orientation ++ "'"] else [])
      ++ (if pyTruthy color then ["color='" ++ pyStr color ++ "'"] else [])
  if parts.isEmpty then "no filters applied" else String.intercalate ", " parts

/-- The `parameters` dict echoed in the random JSON messages. -/
def randomParamsJson (query : PyVal) (count : Int) (orientation color : PyVal) : PyVal :=
  .dict [("query", query), ("count", .int count),
    ("orientation", orientation), ("color", color)]

/-- The body of the random `try` block after the request succeeded, on the
already list-normalised `photos_data`. -/
def randomBody (query : PyVal) (count : Int) (orientation color : PyVal)
    (download : PyVal → Except String String) (photosData : List PyVal) :
    List Msg × Except String Unit :=
  let summary := "Retrieved " ++ toString photosData.length ++ " random photos ("
    ++ randomParamsText query orientation color ++ ")"
  if photosData.isEmpty then
    ([.text summary,
      .json (.dict [("photos", .list []), ("error", PyVal.none),
        ("parameters", randomParamsJson query count orientation color)]),
      .var "random_photos" (.list [])], .ok ())
  else
    match processResults "unsplash_random_" download photosData with
    | (evs, .error e) => (.text summary :: evs, .error e)
    | (evs, .ok (photos, details)) =>
      (.text summary :: evs
        ++ [.json (.dict [("photos", .list photos), ("error", PyVal.none),
              ("parameters", randomParamsJson query count orientation color),
              ("photo_details", .list details)]),
            .var "random_photos" (.list photos),
            .var "photo_details" (.list details)], .ok ())

/-- `UnsplashRandomTool._invoke` (src/tools/random.py 100-285).  The
single-object-vs-list normalisation of the upstream body
(`if not isinstance(photos_data, list): photos_data = [photos_data]`,
lines 150-153) happens right after the request. -/
def randomInvoke (params : List (String × PyVal)) (env : RandomEnv) : List Msg :=
  match validateRandomParams params with
  | .error e => randomFailureEvents ("Parameter error: " ++ e)
  | .ok _ =>
    let query := pyGet params "query"
    let count : Int := min (pyToInt (pyGetD params "count" (.int 1))) 30
    let orientation := pyGet params "orientation"
    let color := pyGet params "color"
    match env.response with
    | .error e => randomFailureEvents ("Unsplash API request error: " ++ e)
    | .ok body =>
      let photosData : List PyVal :=
        match body with
        | .list xs => xs
        | v => [v]
      match randomBody query count orientation color env.download photosData with
      | (evs, .ok _) => evs
      | (evs, .error e) =>
        evs ++ randomFailureEvents ("Error retrieving random photos: " ++ e)

/-!  ## Credential validation (src/provider/unsplash.py 19-62).

`_validate_credentials` raises `ToolProviderCredentialValidationError` on
every failure; the model records whether the test request was issued and
the outcome (the error string is the wrapped message the provider
raises). -/

/-- Outcome of the provider's test request `GET /photos`. -/
structure CredEnv where
  transportError : Option String
  statusCode : Int
  responseText : String

/-- `UnsplashProvider._validate_credentials`: whether a network call was
issued, and the validation outcome. -/
def validateCredentials (credentials : List (String × PyVal)) (env : CredEnv) :
    Bool × Except String Unit :=
  let access_key := pyGet credentials "access_key"
  if !pyTruthy access_key then
    (false, .error "Credential validation failed: Unsplash Access Key cannot be empty")
  else
    match env.transportError with
    | some e => (true, .error ("API request exception: " ++ e))
    | Option.none =>
      if env.statusCode == 401 then
        (true, .error "Credential validation failed: Invalid Unsplash Access Key")
      else if env.statusCode == 403 then
        (true, .error "Credential validation failed: Unsplash API permission denied, please check your application status")
      else if env.statusCode == 429 then
        (true, .error "Credential validation failed: Exceeded Unsplash API request limit, please try again later")
      else if env.statusCode != 200 then
        (true, .error ("Credential validation failed: API request failed, status code: "
          ++ toString env.statusCode ++ ", error: " ++ env.responseText))
      else
        (true, .ok ())

/-!  ## Concrete fixtures used by the closed instances below. -/

/-- A photo whose `regular` URL is present (its download will fail in
`envW`). -/
def pfW : PyVal := .dict [("id", .str "pf"), ("urls", .dict [("regular", .str "u")])]

/-- Search payload holding only `pfW`. -/
def dataW : List (String × PyVal) := [("results", .list [pfW]), ("total", .int 1)]

/-- Environment whose downloads all fail. -/
def envW : SearchEnv := { response := .ok dataW, download := fun _ => .error "boom" }

/-- First photo of the end-to-end example. -/
def ph1C9 : PyVal := .dict [("id", .str "p1"), ("description", .str "A mountain"),
  ("width", .int 4000), ("height", .int 3000),
  ("urls", .dict [("regular", .str "https://img/1")]),
  ("user", .dict [("name", .str "Alice")]),
  ("links", .dict [("html", .str "https://page/1")])]

/-- Second photo of the end-to-end example. -/
def ph2C9 : PyVal := .dict [("id", .str "p2"),
  ("urls", .dict [("regular", .str "https://img/2")]),
  ("user", .dict [("name", .str "Bob")])]

/-- Upstream payload of the end-to-end example: `total = 57`, two
results. -/
def dataC9 : List (String × PyVal) :=
  [("results", .list [ph1C9, ph2C9]), ("total", .int 57), ("total_pages", .int 29)]

/-- Environment of the end-to-end example: request succeeds, every
download succeeds. -/
def envC9 : SearchEnv := { response := .ok dataC9, download := fun _ => .ok "IMG" }

/-- Parameters of the end-to-end example. -/
def paramsC9 : List (String × PyVal) := [("query", .str "mountains"), ("per_page", .int 2)]

/-- Is this value a Python list? -/
def PyVal.isList : PyVal → Bool
  | .list _ => true
  | _ => false

/-- The PhotoRecord of a well-formed photo value. -/
def recordOf (p : PyVal) : PyVal :=
  match p with
  | .dict es => photoRecordOf es
  | _ => PyVal.none

/-- The value `photo.get('urls', {}).get('regular')` takes on a
well-formed photo. -/
def rawRegular (p : PyVal) : PyVal :=
  match p with
  | .dict es => subGet es "urls" "regular"
  | _ => PyVal.none

/-- Does the loop attempt a download for this photo (`if image_url:`)? -/
def attemptsDownload (p : PyVal) : Bool := pyTruthy (rawRegular p)

/-- The messages the loop body emits for one photo. -/
def photoEvents (prefix_ : String) (download : PyVal → Except String String)
    (p : PyVal) : List Msg :=
  if attemptsDownload p then (attemptDownload prefix_ download p (rawRegular p)).1
  else []

/-- The photo-detail the loop body produces for one photo, if any. -/
def photoDetailOpt (prefix_ : String) (download : PyVal → Except String String)
    (p : PyVal) : Option PyVal :=
  if attemptsDownload p then (attemptDownload prefix_ download p (rawRegular p)).2
  else Option.none

theorem nestedOk_dict {es : List (String × PyVal)} {k : String}
    (h : nestedOkB es k = true) :
    ∃ ss, pyGetD es k (.dict []) = .dict ss := by
  unfold nestedOkB at h
  unfold pyGetD
  cases hd : dictGet es k with
  | none => exact ⟨[], rfl⟩
  | some v =>
    rw [hd] at h
    cases v with
    | dict ss => exact ⟨ss, rfl⟩
    | none => simp at h
    | bool b => simp at h
    | int n => simp at h
    | float q => simp at h
    | str s => simp at h
    | list xs => simp at h

theorem buildPhotoObject_wf_eq {es : List (String × PyVal)}
    (h : wellFormedPhoto (.dict es) = true) :
    buildPhotoObject (.dict es) = .ok (photoRecordOf es) := by
  unfold wellFormedPhoto at h
  have h1 : nestedOkB es "urls" = true := by
    cases hu : nestedOkB es "urls" <;> simp [hu] at h ⊢
  have h2 : nestedOkB es "user" = true := by
    cases hu : nestedOkB es "user" <;> simp [hu] at h ⊢
  have h3 : nestedOkB es "links" = true := by
    cases hu : nestedOkB es "links" <;> simp [hu] at h ⊢
  obtain ⟨us, hus⟩ := nestedOk_dict h1
  obtain ⟨ss, hss⟩ := nestedOk_dict h2
  obtain ⟨ls, hls⟩ := nestedOk_dict h3
  simp [buildPhotoObject, pyAttrGet, pyAttrGetD, hus, hss, hls,
    photoRecordOf, subGet, pyGet, Bind.bind, Except.bind, pure, Except.pure]

theorem wf_of_loopSafe {p : PyVal} (h : photoLoopSafe p = true) :
    wellFormedPhoto p = true := by
  unfold photoLoopSafe at h
  exact (Bool.and_eq_true _ _ |>.mp h).1

theorem urlChain_eq {es : List (String × PyVal)}
    (h : wellFormedPhoto (.dict es) = true) :
    (do pyAttrGet (← pyAttrGetD (.dict es) "urls" (.dict [])) "regular" :
        Except String PyVal) = .ok (rawRegular (.dict es)) := by
  unfold wellFormedPhoto at h
  have h1 : nestedOkB es "urls" = true := by
    cases hu : nestedOkB es "urls" <;> simp [hu] at h ⊢
  obtain ⟨us, hus⟩ := nestedOk_dict h1
  simp [pyAttrGet, pyAttrGetD, hus, rawRegular, subGet, pyGet,
    Bind.bind, Except.bind, pure, Except.pure]

theorem processResults_safe (prefix_ : String)
    (download : PyVal → Except String String) (l : List PyVal)
    (h : ∀ p ∈ l, photoLoopSafe p = true) :
    processResults prefix_ download l
      = (l.flatMap (photoEvents prefix_ download),
         .ok (l.map recordOf, l.filterMap (photoDetailOpt prefix_ download))) := by
  induction l with
  | nil => simp [processResults]
  | cons p rest ih =>
    have hp : photoLoopSafe p = true := h p (List.mem_cons_self p rest)
    have hwf : wellFormedPhoto p = true := wf_of_loopSafe hp
    have hrest : ∀ q ∈ rest, photoLoopSafe q = true :=
      fun q hq => h q (List.mem_cons_of_mem p hq)
    obtain ⟨es, rfl⟩ : ∃ es, p = .dict es := by
      cases p <;> simp [wellFormedPhoto] at hwf ⊢
    rw [processResults, buildPhotoObject_wf_eq hwf, urlChain_eq hwf, ih hrest]
    simp only [recordOf, photoEvents, photoDetailOpt, List.flatMap_cons,
      List.map_cons, List.filterMap_cons, attemptsDownload]
    by_cases ha : pyTruthy (rawRegular (.dict es)) = true
    · simp only [ha, if_true]
      cases (attemptDownload prefix_ download (.dict es) (rawRegular (.dict es))).2 <;> simp
    · rw [Bool.not_eq_true] at ha
      simp [ha]

theorem attemptDownload_err {prefix_ : String} {download : PyVal → Except String String}
    {p url : PyVal} {e : String} (h : download url = .error e) :
    attemptDownload prefix_ download p url
      = ([.text ("Failed to process image: " ++ e)], Option.none) := by
  unfold attemptDownload
  rw [h]

theorem descriptionOf_ok {es : List (String × PyVal)}
    (h : wellFormedPhoto (.dict es) = true) :
    ∃ d, descriptionOf (.dict es) = .ok d := by
  have h2 : nestedOkB es "user" = true := by
    unfold wellFormedPhoto at h
    cases hu : nestedOkB es "user" <;> simp [hu] at h ⊢
  obtain ⟨ss, hss⟩ := nestedOk_dict h2
  unfold descriptionOf
  simp only [pyAttrGet, pyAttrGetD, hss, Bind.bind, Except.bind, pure, Except.pure]
  split
  · exact ⟨_, rfl⟩
  · split
    · exact ⟨_, rfl⟩
    · exact ⟨_, rfl⟩

theorem detailOf_ok {es : List (String × PyVal)}
    (h : photoLoopSafe (.dict es) = true) (d : PyVal) :
    ∃ dt, detailOf (.dict es) d = .ok dt := by
  have hwf := wf_of_loopSafe h
  have hub : userLinksOkB (.dict es) = true := by
    unfold photoLoopSafe at h
    exact (Bool.and_eq_true _ _ |>.mp h).2
  have h3 : nestedOkB es "links" = true := by
    unfold wellFormedPhoto at hwf
    cases hu : nestedOkB es "links" <;> simp [hu] at hwf ⊢
  have h2 : nestedOkB es "user" = true := by
    unfold wellFormedPhoto at hwf
    cases hu : nestedOkB es "user" <;> simp [hu] at hwf ⊢
  obtain ⟨ss, hss⟩ := nestedOk_dict h2
  obtain ⟨ls, hls⟩ := nestedOk_dict h3
  have hul : nestedOkB ss "links" = true := by
    simp only [userLinksOkB] at hub
    unfold pyGetD at hss
    cases hd : dictGet es "user" with
    | none =>
      rw [hd] at hss
      simp at hss
      subst hss
      rfl
    | some v =>
      rw [hd] at hss
      simp at hss
      subst hss
      rw [hd] at hub
      simpa using hub
  obtain ⟨lsU, hlsU⟩ := nestedOk_dict hul
  refine ⟨.dict [("id", pyGetD es "id" PyVal.none), ("description", d),
    ("dimensions", .str (pyStr (pyGetD es "width" (.str "Unknown")) ++ "x"
      ++ pyStr (pyGetD es "height" (.str "Unknown")))),
    ("author", pyGetD ss "name" (.str "Unknown")),
    ("photo_link", pyGetD ls "html" (.str "")),
    ("user_link", pyGetD lsU "html" (.str "")),
    ("license", .str "Unsplash License - https://unsplash.com/license")], ?_⟩
  unfold detailOf
  simp only [pyAttrGet, pyAttrGetD, hss, hls, hlsU,
    Bind.bind, Except.bind, pure, Except.pure]

theorem attemptDownload_ok {prefix_ : String} {download : PyVal → Except String String}
    {p url : PyVal} {b : String}
    (hs : photoLoopSafe p = true) (h : download url = .ok b) :
    ∃ fn d dt, attemptDownload prefix_ download p url
      = ([.blob b "image/jpeg" fn d], some dt) := by
  obtain ⟨es, rfl⟩ : ∃ es, p = .dict es := by
    cases p <;> simp [photoLoopSafe, wellFormedPhoto] at hs ⊢
  obtain ⟨d, hd⟩ := descriptionOf_ok (wf_of_loopSafe hs)
  obtain ⟨dt, hdt⟩ := detailOf_ok hs d
  refine ⟨prefix_ ++ pyStr (pyGetD es "id" (.str "photo")) ++ ".jpg", d, dt, ?_⟩
  unfold attemptDownload
  rw [h, hd]
  simp only [pyAttrGetD, hdt]

theorem photoEvents_noAttempt {prefix_ : String} {download : PyVal → Except String String}
    {p : PyVal} (h : attemptsDownload p = false) :
    photoEvents prefix_ download p = [] ∧ photoDetailOpt prefix_ download p = Option.none := by
  unfold photoEvents photoDetailOpt
  rw [h]
  exact ⟨rfl, rfl⟩

theorem photoEvents_fail {prefix_ : String} {download : PyVal → Except String String}
    {p : PyVal} {e : String} (ha : attemptsDownload p = true)
    (h : download (rawRegular p) = .error e) :
    photoEvents prefix_ download p = [.text ("Failed to process image: " ++ e)]
      ∧ photoDetailOpt prefix_ download p = Option.none := by
  unfold photoEvents photoDetailOpt
  rw [ha, attemptDownload_err h]
  exact ⟨rfl, rfl⟩

theorem photoEvents_ok {prefix_ : String} {download : PyVal → Except String String}
    {p : PyVal} {b : String} (hs : photoLoopSafe p = true)
    (ha : attemptsDownload p = true) (h : download (rawRegular p) = .ok b) :
    (∃ fn d, photoEvents prefix_ download p = [.blob b "image/jpeg" fn d])
      ∧ (photoDetailOpt prefix_ download p).isSome = true := by
  obtain ⟨fn, d, dt, hd⟩ := attemptDownload_ok hs h
  unfold photoEvents photoDetailOpt
  rw [ha, hd]
  exact ⟨⟨fn, d, rfl⟩, rfl⟩

/-- Per-photo events contain no text message when the download (if any)
succeeds. -/
theorem photoEvents_noText {prefix_ : String} {download : PyVal → Except String String}
    {p : PyVal} (hs : photoLoopSafe p = true)
    (h : attemptsDownload p = true → ∃ b, download (rawRegular p) = .ok b) :
    (photoEvents prefix_ download p).filter Msg.isText = [] := by
  by_cases ha : attemptsDownload p = true
  · obtain ⟨b, hb⟩ := h ha
    obtain ⟨⟨fn, d, he⟩, -⟩ := @photoEvents_ok prefix_ download p b hs ha hb
    rw [he]
    rfl
  · rw [Bool.not_eq_true] at ha
    rw [(photoEvents_noAttempt ha).1]
    rfl

theorem flatMap_filter_text_nil {prefix_ : String}
    {download : PyVal → Except String String} {l : List PyVal}
    (h : ∀ p ∈ l, (photoEvents prefix_ download p).filter Msg.isText = []) :
    (l.flatMap (photoEvents prefix_ download)).filter Msg.isText = [] := by
  induction l with
  | nil => rfl
  | cons p rest ih =>
    rw [List.flatMap_cons, List.filter_append,
      h p (List.mem_cons_self p rest), ih (fun q hq => h q (List.mem_cons_of_mem p hq))]
    rfl

/-- Skeleton of a successful search invocation with a nonempty result
list: the exact message stream in terms of the per-photo loop. -/
theorem searchInvoke_results (params : List (String × PyVal)) (env : SearchEnv)
    (data : List (String × PyVal)) (l : List PyVal) (t : Int)
    (hval : validateSearchParams params = .ok ())
    (hresp : env.response = .ok data)
    (hres : pyGetD data "results" (.list []) = .list l)
    (hl : l ≠ [])
    (htot : pyGetD data "total" (.int 0) = .int t)
    (ht : 0 < t)
    (hsafe : ∀ p ∈ l, photoLoopSafe p = true) :
    searchInvoke params env
      = Msg.text ("Found " ++ toString t ++ " photos for "
          ++ searchParamsText (pyGet params "query") (pyGet params "orientation")
              (pyGet params "color")
          ++ ". Showing " ++ toString l.length ++ " results.")
        :: l.flatMap (photoEvents "unsplash_" env.download)
        ++ [Msg.json (searchResultJson (l.map recordOf) (.int t)
              (pyGetD data "total_pages" (.int 0)) (pyGet params "query")
              (min (pyToInt (pyGetD params "per_page" (.int 10))) 30)
              (pyGet params "orientation") (pyGet params "color")
              (l.filterMap (photoDetailOpt "unsplash_" env.download))),
            Msg.var "photos" (.list (l.map recordOf)),
            Msg.var "photo_details" (.list (l.filterMap (photoDetailOpt "unsplash_" env.download))),
            Msg.var "total_results" (.int t)] := by
  have hgt : pyGtZero (.int t) = .ok true := by
    simp [pyGtZero, ht]
  have htr : pyTruthy (.list l) = true := by
    simp [pyTruthy, hl]
  unfold searchInvoke searchBody
  simp only [hval, hresp, hres, htot, hgt, htr, pyLen, Except.map, Bool.not_true,
    pyStr, pyIterate, processResults_safe "unsplash_" env.download l hsafe,
    Bool.false_eq_true, if_false, if_true, List.cons_append]

/-!  ## Claims -/

/-- C8: for every credentials map whose `access_key` is missing, empty or
otherwise falsy, `_validate_credentials` fails with the credential
validation error ("Unsplash Access Key cannot be empty", wrapped by the
generic handler into the `ToolProviderCredentialValidationError` signal)
and the test request to the photos endpoint is never issued (the returned
flag is `false`). -/
theorem claim_c8_empty_access_key (credentials : List (String × PyVal)) (env : CredEnv)
    (h : pyTruthy (pyGet credentials "access_key") = false) :
    validateCredentials credentials env
      = (false, .error "Credential validation failed: Unsplash Access Key cannot be empty") := by
  simp [validateCredentials, h]

/-- Witness for C8 at empty credentials. -/
theorem claim_c8_empty_access_key_witness :
    pyTruthy (pyGet [] "access_key") = false
      ∧ validateCredentials [] ⟨Option.none, 200, ""⟩
          = (false, .error "Credential validation failed: Unsplash Access Key cannot be empty") :=
  ⟨rfl, claim_c8_empty_access_key [] ⟨Option.none, 200, ""⟩ rfl⟩

/-- C3: when the primary search request fails (non-2xx raised by
`raise_for_status` or a transport-level `RequestException`), the search
invocation emits exactly one summary-text event and one JSON event whose
`error` field is populated (truthy) — the failure JSON carries only the
error field, so no photos and no total are reported — followed by the
empty `photos` variable and the zero `total_results` variable, and the
stream ends there; no exception escapes (`searchInvoke` is total). -/
theorem claim_c3_search_request_failure (params : List (String × PyVal))
    (env : SearchEnv) (e : String)
    (hval : validateSearchParams params = .ok ())
    (hresp : env.response = .error e) :
    searchInvoke params env
      = [.text ("Unsplash API request error: " ++ e),
         .json (.dict [("error", .str ("Unsplash API request error: " ++ e))]),
         .var "photos" (.list []), .var "total_results" (.int 0)]
    ∧ pyTruthy (recGet (.dict [("error", .str ("Unsplash API request error: " ++ e))])
        "error") = true := by
  constructor
  · unfold searchInvoke
    simp only [hval, hresp]
    rfl
  · simp [recGet, pyGet, pyGetD, dictGet, pyTruthy, bne_iff_ne, String.ext_iff]

/-- Witness for C3 at a concrete failing request. -/
theorem claim_c3_search_request_failure_witness :
    validateSearchParams [("query", .str "cats")] = .ok ()
      ∧ (searchInvoke [("query", .str "cats")]
            { response := .error "boom", download := fun _ => .ok "" }
          = [.text "Unsplash API request error: boom",
             .json (.dict [("error", .str "Unsplash API request error: boom")]),
             .var "photos" (.list []), .var "total_results" (.int 0)]
        ∧ pyTruthy (recGet (.dict [("error", .str "Unsplash API request error: boom")])
            "error") = true) :=
  ⟨by rfl, claim_c3_search_request_failure [("query", .str "cats")]
    { response := .error "boom", download := fun _ => .ok "" } "boom" (by rfl) rfl⟩

/-- C5: on a successful search whose upstream payload has `total = 0` and
an empty result list, the stream is exactly: one summary-text event, one
JSON event with `photos = []` and `total = 0`, the `photos = []` variable
event and the `total_results = 0` variable event, in that order. -/
theorem claim_c5_zero_results (params : List (String × PyVal)) (env : SearchEnv)
    (data : List (String × PyVal))
    (hval : validateSearchParams params = .ok ())
    (hresp : env.response = .ok data)
    (hres : pyGetD data "results" (.list []) = .list [])
    (htot : pyGetD data "total" (.int 0) = .int 0) :
    searchInvoke params env
      = [.text ("No photos found for "
            ++ searchParamsText (pyGet params "query") (pyGet params "orientation")
                (pyGet params "color")
            ++ ". Please try different keywords."),
         .json (searchEmptyJson (pyGet params "query")
            (min (pyToInt (pyGetD params "per_page" (.int 10))) 30)
            (pyGet params "orientation") (pyGet params "color")),
         .var "photos" (.list []),
         .var "total_results" (.int 0)] := by
  unfold searchInvoke searchBody
  simp [hval, hresp, hres, htot, pyGtZero, pyTruthy]

/-- Witness for C5 at a concrete empty search result. -/
theorem claim_c5_zero_results_witness :
    validateSearchParams [("query", .str "cats")] = .ok ()
      ∧ searchInvoke [("query", .str "cats")]
          { response := .ok [("results", .list []), ("total", .int 0)],
            download := fun _ => .ok "" }
        = [.text ("No photos found for "
              ++ searchParamsText (.str "cats") PyVal.none PyVal.none
              ++ ". Please try different keywords."),
           .json (searchEmptyJson (.str "cats") 10 PyVal.none PyVal.none),
           .var "photos" (.list []),
           .var "total_results" (.int 0)] :=
  ⟨by rfl, claim_c5_zero_results [("query", .str "cats")]
    { response := .ok [("results", .list []), ("total", .int 0)],
      download := fun _ => .ok "" }
    [("results", .list []), ("total", .int 0)] (by rfl) rfl rfl rfl⟩

/-- C6: when the random endpoint returns a single JSON object rather than
a list, the whole invocation produces exactly the same event stream as it
does for the one-element list holding that object (the normalisation at
src/tools/random.py 152-153 is the only place the shape matters). -/
theorem claim_c6_single_object_as_list (params : List (String × PyVal))
    (dl : PyVal → Except String String) (v : PyVal) (hv : v.isList = false) :
    randomInvoke params { response := .ok v, download := dl }
      = randomInvoke params { response := .ok (.list [v]), download := dl } := by
  cases v <;> first
    | rfl
    | simp [PyVal.isList] at hv

/-- Witness for C6 at a concrete photo object. -/
theorem claim_c6_single_object_as_list_witness :
    (PyVal.dict [("id", .str "p1")]).isList = false
      ∧ randomInvoke []
          { response := .ok (.dict [("id", .str "p1")]),
            download := fun _ => .ok "IMG" }
        = randomInvoke []
          { response := .ok (.list [.dict [("id", .str "p1")]]),
            download := fun _ => .ok "IMG" } :=
  ⟨rfl, claim_c6_single_object_as_list [] (fun _ => .ok "IMG")
    (.dict [("id", .str "p1")]) rfl⟩

/-- C1 counterexample: `0.5` is outside `[1, 30]` (it is a fractional
value below 1), yet both validators accept it (`0.5 <= 0` and `0.5 > 30`
are both false), and the search invocation then proceeds to issue the
HTTP request — the probe environment's request failure is surfaced, which
could not happen had validation raised first. -/
theorem claim_c1_counterexample :
    ((1:Rat)/2 < 1 ∧ 0 < (1:Rat)/2)
      ∧ validateSearchParams [("query", .str "cats"), ("per_page", .float (1/2))] = .ok ()
      ∧ validateRandomParams [("count", .float (1/2))] = .ok ()
      ∧ searchInvoke [("query", .str "cats"), ("per_page", .float (1/2))]
          { response := .error "probe", download := fun _ => .ok "" }
        = searchFailureEvents "Unsplash API request error: probe" := by
  have hv : validateSearchParams [("query", .str "cats"), ("per_page", .float (1/2))]
      = .ok () := by
    simp [validateSearchParams, rangeCheckFails, pyIsNumeric, pyToRat, pyGet,
      pyGetD, dictGet, pyTruthy, pyStrip, String.length]
    norm_num
  refine ⟨by norm_num, hv, ?_, ?_⟩
  · simp [validateRandomParams, rangeCheckFails, pyIsNumeric, pyToRat, pyGetD, dictGet]
    norm_num
  · unfold searchInvoke
    simp only [hv]
    rfl

/-- C1 (amended): every `per_page`/`count` value that is non-numeric,
`<= 0`, or `> 30` is rejected by `_validate_parameters` with a
`ValueError` before any HTTP request is issued (the invocation's output
does not depend on the HTTP environment at all); the amendment is that
numeric values strictly between 0 and 1 — e.g. the fractional `0.5` of
the counterexample — pass validation even though they lie outside
`[1, 30]`. -/
theorem claim_c1_out_of_range_rejected (v : PyVal)
    (h : pyIsNumeric v = false ∨ pyToRat v ≤ 0 ∨ 30 < pyToRat v) :
    validateSearchParams [("query", .str "cats"), ("per_page", v)]
        = .error "Results per page must be an integer between 1 and 30"
      ∧ validateRandomParams [("count", v)]
        = .error "Photo count must be an integer between 1 and 30"
      ∧ (∀ e1 e2 : SearchEnv,
          searchInvoke [("query", .str "cats"), ("per_page", v)] e1
            = searchInvoke [("query", .str "cats"), ("per_page", v)] e2)
      ∧ (∀ e1 e2 : RandomEnv,
          randomInvoke [("count", v)] e1 = randomInvoke [("count", v)] e2) := by
  have hrange : rangeCheckFails v = true := by
    rcases h with h | h | h <;> simp [rangeCheckFails, h]
  have hs : validateSearchParams [("query", .str "cats"), ("per_page", v)]
      = .error "Results per page must be an integer between 1 and 30" := by
    simp [validateSearchParams, pyGet, pyGetD, dictGet, pyTruthy, pyStrip,
      String.length, hrange]
  have hr : validateRandomParams [("count", v)]
      = .error "Photo count must be an integer between 1 and 30" := by
    simp [validateRandomParams, pyGetD, dictGet, hrange]
  refine ⟨hs, hr, ?_, ?_⟩
  · intro e1 e2
    unfold searchInvoke
    simp only [hs]
  · intro e1 e2
    unfold randomInvoke
    simp only [hr]

/-- Witness for amended C1 at the non-numeric value `"ten"`. -/
theorem claim_c1_out_of_range_rejected_witness :
    pyIsNumeric (.str "ten") = false
      ∧ (validateSearchParams [("query", .str "cats"), ("per_page", .str "ten")]
          = .error "Results per page must be an integer between 1 and 30"
        ∧ validateRandomParams [("count", .str "ten")]
          = .error "Photo count must be an integer between 1 and 30"
        ∧ (∀ e1 e2 : SearchEnv,
            searchInvoke [("query", .str "cats"), ("per_page", .str "ten")] e1
              = searchInvoke [("query", .str "cats"), ("per_page", .str "ten")] e2)
        ∧ (∀ e1 e2 : RandomEnv,
            randomInvoke [("count", .str "ten")] e1
              = randomInvoke [("count", .str "ten")] e2)) :=
  ⟨rfl, claim_c1_out_of_range_rejected (.str "ten") (Or.inl rfl)⟩

/-- C2 counterexample: an input map whose `urls` entry holds a non-map
value makes `_build_photo_object` raise `AttributeError`
(`photo.get('urls', {}).get('raw')` is called on the string) instead of
returning a PhotoRecord, so the normaliser does not tolerate malformed
non-map nested sections. -/
theorem claim_c2_counterexample :
    buildPhotoObject (.dict [("urls", .str "not-a-dict")])
      = .error "'str' object has no attribute 'get'" := by rfl

/-- C2 (amended): for every input map whose nested sections `urls`,
`user` and `links` are, when present, maps, `_build_photo_object` returns
(never raises) the PhotoRecord in which every schema field holds the
upstream value when present and the absent marker `None` otherwise
(`photoRecordOf`); a nested section that is present with a non-map value
instead raises `AttributeError`, per the counterexample. -/
theorem claim_c2_build_photo_total (es : List (String × PyVal))
    (h : wellFormedPhoto (.dict es) = true) :
    buildPhotoObject (.dict es) = .ok (photoRecordOf es) :=
  buildPhotoObject_wf_eq h

/-- Witness for amended C2 at a map missing every nested section. -/
theorem claim_c2_build_photo_total_witness :
    wellFormedPhoto (.dict [("id", .str "p9")]) = true
      ∧ buildPhotoObject (.dict [("id", .str "p9")])
        = .ok (photoRecordOf [("id", .str "p9")]) :=
  ⟨rfl, claim_c2_build_photo_total [("id", .str "p9")] rfl⟩

/-- C7: on every well-formed upstream photo object, the normaliser's
output record carries, for each of the schema's scalar fields and nested
group fields, exactly the upstream value under the identical name
(`pyGet`/`subGet` return the present upstream value, or the absent marker
`None` when the field or its whole section is absent upstream — never an
empty-string or zero default), as the trailing conjuncts spell out. -/
theorem claim_c7_field_roundtrip (es : List (String × PyVal))
    (h : wellFormedPhoto (.dict es) = true) :
    ∃ rec, buildPhotoObject (.dict es) = .ok rec
      ∧ (∀ k ∈ (["id", "description", "alt_description", "width", "height",
            "color", "likes", "created_at", "updated_at"] : List String),
          recGet rec k = pyGet es k)
      ∧ (∀ sk ∈ ([("urls", "raw"), ("urls", "full"), ("urls", "regular"),
            ("urls", "small"), ("urls", "thumb"), ("user", "id"), ("user", "name"),
            ("user", "username"), ("user", "portfolio_url"), ("user", "profile_image"),
            ("links", "self"), ("links", "html"), ("links", "download"),
            ("links", "download_location")] : List (String × String)),
          recGet2 rec sk.1 sk.2 = subGet es sk.1 sk.2)
      ∧ (∀ k w, dictGet es k = some w → pyGet es k = w)
      ∧ (∀ k, dictGet es k = Option.none → pyGet es k = PyVal.none)
      ∧ (∀ sec k ss w, dictGet es sec = some (.dict ss) → dictGet ss k = some w →
          subGet es sec k = w)
      ∧ (∀ sec k ss, dictGet es sec = some (.dict ss) → dictGet ss k = Option.none →
          subGet es sec k = PyVal.none)
      ∧ (∀ sec k, dictGet es sec = Option.none → subGet es sec k = PyVal.none) := by
  refine ⟨photoRecordOf es, buildPhotoObject_wf_eq h, ?_, ?_, ?_, ?_, ?_, ?_, ?_⟩
  · intro k hk
    fin_cases hk <;> rfl
  · intro sk hk
    fin_cases hk <;> rfl
  · intro k w hw
    simp [pyGet, pyGetD, hw]
  · intro k hw
    simp [pyGet, pyGetD, hw]
  · intro sec k ss w h1 h2
    simp [subGet, pyGetD, h1, pyGet, h2]
  · intro sec k ss h1 h2
    simp [subGet, pyGetD, h1, pyGet, h2]
  · intro sec k h1
    simp only [subGet, pyGetD, h1]
    rfl

/-- Witness for C7 at a photo with one present and one absent field per
group. -/
theorem claim_c7_field_roundtrip_witness :
    wellFormedPhoto (.dict [("id", .str "p1"), ("urls", .dict [("regular", .str "u")])])
        = true
      ∧ ∃ rec, buildPhotoObject
            (.dict [("id", .str "p1"), ("urls", .dict [("regular", .str "u")])])
          = .ok rec
        ∧ (∀ k ∈ (["id", "description", "alt_description", "width", "height",
              "color", "likes", "created_at", "updated_at"] : List String),
            recGet rec k = pyGet [("id", .str "p1"),
              ("urls", .dict [("regular", .str "u")])] k)
        ∧ (∀ sk ∈ ([("urls", "raw"), ("urls", "full"), ("urls", "regular"),
              ("urls", "small"), ("urls", "thumb"), ("user", "id"), ("user", "name"),
              ("user", "username"), ("user", "portfolio_url"), ("user", "profile_image"),
              ("links", "self"), ("links", "html"), ("links", "download"),
              ("links", "download_location")] : List (String × String)),
            recGet2 rec sk.1 sk.2 = subGet [("id", .str "p1"),
              ("urls", .dict [("regular", .str "u")])] sk.1 sk.2)
        ∧ (∀ k w, dictGet [("id", .str "p1"), ("urls", .dict [("regular", .str "u")])] k
              = some w
            → pyGet [("id", .str "p1"), ("urls", .dict [("regular", .str "u")])] k = w)
        ∧ (∀ k, dictGet [("id", .str "p1"), ("urls", .dict [("regular", .str "u")])] k
              = Option.none
            → pyGet [("id", .str "p1"), ("urls", .dict [("regular", .str "u")])] k
              = PyVal.none)
        ∧ (∀ sec k ss w, dictGet [("id", .str "p1"),
              ("urls", .dict [("regular", .str "u")])] sec = some (.dict ss)
            → dictGet ss k = some w
            → subGet [("id", .str "p1"), ("urls", .dict [("regular", .str "u")])] sec k
              = w)
        ∧ (∀ sec k ss, dictGet [("id", .str "p1"),
              ("urls", .dict [("regular", .str "u")])] sec = some (.dict ss)
            → dictGet ss k = Option.none
            → subGet [("id", .str "p1"), ("urls", .dict [("regular", .str "u")])] sec k
              = PyVal.none)
        ∧ (∀ sec k, dictGet [("id", .str "p1"),
              ("urls", .dict [("regular", .str "u")])] sec = Option.none
            → subGet [("id", .str "p1"), ("urls", .dict [("regular", .str "u")])] sec k
              = PyVal.none) :=
  ⟨rfl, claim_c7_field_roundtrip [("id", .str "p1"),
    ("urls", .dict [("regular", .str "u")])] rfl⟩

/-- C10: a result photo whose `urls.regular` is absent is skipped
silently — the invocation (here with that photo as the whole result set)
emits no blob event and no error-text event for it (the only text event
is the summary), produces no PhotoDetail, and still carries the photo's
PhotoRecord in the final `photos` list. -/
theorem claim_c10_missing_regular_silent (params : List (String × PyVal))
    (env : SearchEnv) (data : List (String × PyVal)) (es : List (String × PyVal))
    (t : Int)
    (hval : validateSearchParams params = .ok ())
    (hresp : env.response = .ok data)
    (hres : pyGetD data "results" (.list []) = .list [.dict es])
    (htot : pyGetD data "total" (.int 0) = .int t) (ht : 0 < t)
    (hsafe : photoLoopSafe (.dict es) = true)
    (hreg : subGet es "urls" "regular" = PyVal.none) :
    searchInvoke params env
      = [.text ("Found " ++ toString t ++ " photos for "
            ++ searchParamsText (pyGet params "query") (pyGet params "orientation")
                (pyGet params "color")
            ++ ". Showing " ++ toString ([PyVal.dict es] : List PyVal).length
            ++ " results."),
         .json (searchResultJson [photoRecordOf es] (.int t)
            (pyGetD data "total_pages" (.int 0)) (pyGet params "query")
            (min (pyToInt (pyGetD params "per_page" (.int 10))) 30)
            (pyGet params "orientation") (pyGet params "color") []),
         .var "photos" (.list [photoRecordOf es]),
         .var "photo_details" (.list []),
         .var "total_results" (.int t)]
      ∧ (searchInvoke params env).filter Msg.isBlob = []
      ∧ ((searchInvoke params env).filter Msg.isText).length = 1 := by
  have hatt : attemptsDownload (.dict es) = false := by
    simp [attemptsDownload, rawRegular, hreg, pyTruthy]
  have heq := searchInvoke_results params env data [.dict es] t hval hresp hres
    (by simp) htot ht (by simpa using hsafe)
  rw [List.flatMap_cons, List.flatMap_nil, (photoEvents_noAttempt hatt).1,
    List.filterMap_cons, List.filterMap_nil, (photoEvents_noAttempt hatt).2] at heq
  simp only [List.map_cons, List.map_nil, List.nil_append, List.append_nil,
    recordOf, List.singleton_append] at heq
  refine ⟨?_, ?_, ?_⟩
  · exact heq
  · rw [heq]
    rfl
  · rw [heq]
    rfl

/-- Witness for C10 at a photo whose `urls` lack `regular`. -/
theorem claim_c10_missing_regular_silent_witness :
    subGet [("id", .str "p3"), ("urls", .dict [("small", .str "s")])] "urls" "regular"
        = PyVal.none
      ∧ (searchInvoke [("query", .str "cats")]
          { response := .ok [("results",
              .list [.dict [("id", .str "p3"), ("urls", .dict [("small", .str "s")])]]),
              ("total", .int 1)],
            download := fun _ => .ok "IMG" }
        = [.text ("Found " ++ toString (1:Int) ++ " photos for "
              ++ searchParamsText (pyGet [("query", .str "cats")] "query")
                  (pyGet [("query", .str "cats")] "orientation")
                  (pyGet [("query", .str "cats")] "color")
              ++ ". Showing "
              ++ toString ([PyVal.dict [("id", .str "p3"),
                    ("urls", .dict [("small", .str "s")])]] : List PyVal).length
              ++ " results."),
           .json (searchResultJson
              [photoRecordOf [("id", .str "p3"), ("urls", .dict [("small", .str "s")])]]
              (.int 1)
              (pyGetD [("results",
                .list [.dict [("id", .str "p3"), ("urls", .dict [("small", .str "s")])]]),
                ("total", .int 1)] "total_pages" (.int 0))
              (pyGet [("query", .str "cats")] "query")
              (min (pyToInt (pyGetD [("query", .str "cats")] "per_page" (.int 10))) 30)
              (pyGet [("query", .str "cats")] "orientation")
              (pyGet [("query", .str "cats")] "color") []),
           .var "photos" (.list [photoRecordOf [("id", .str "p3"),
              ("urls", .dict [("small", .str "s")])]]),
           .var "photo_details" (.list []),
           .var "total_results" (.int 1)]
        ∧ (searchInvoke [("query", .str "cats")]
            { response := .ok [("results",
                .list [.dict [("id", .str "p3"), ("urls", .dict [("small", .str "s")])]]),
                ("total", .int 1)],
              download := fun _ => .ok "IMG" }).filter Msg.isBlob = []
        ∧ ((searchInvoke [("query", .str "cats")]
            { response := .ok [("results",
                .list [.dict [("id", .str "p3"), ("urls", .dict [("small", .str "s")])]]),
                ("total", .int 1)],
              download := fun _ => .ok "IMG" }).filter Msg.isText).length = 1) :=
  ⟨rfl, claim_c10_missing_regular_silent [("query", .str "cats")]
    { response := .ok [("results",
        .list [.dict [("id", .str "p3"), ("urls", .dict [("small", .str "s")])]]),
        ("total", .int 1)],
      download := fun _ => .ok "IMG" }
    [("results", .list [.dict [("id", .str "p3"), ("urls", .dict [("small", .str "s")])]]),
      ("total", .int 1)]
    [("id", .str "p3"), ("urls", .dict [("small", .str "s")])] 1
    (by rfl) rfl rfl rfl (by decide) (by decide) rfl⟩

/-- C4: when the image download fails for exactly one photo of a result
set (every other photo either downloads successfully or attempts no
download), the stream still carries all N PhotoRecords in the final
lists, the PhotoDetail list has fewer than N entries (the failed photo
contributes none), and exactly one error-text event appears among the
per-photo events, which all precede the final JSON event; processing
continues past the failure. -/
theorem claim_c4_one_download_failure (params : List (String × PyVal))
    (env : SearchEnv) (data : List (String × PyVal)) (A B : List PyVal)
    (pf : PyVal) (t : Int) (errMsg : String)
    (hval : validateSearchParams params = .ok ())
    (hresp : env.response = .ok data)
    (hres : pyGetD data "results" (.list []) = .list (A ++ pf :: B))
    (htot : pyGetD data "total" (.int 0) = .int t) (ht : 0 < t)
    (hsafe : ∀ p ∈ A ++ pf :: B, photoLoopSafe p = true)
    (hpf : attemptsDownload pf = true)
    (hpfe : env.download (rawRegular pf) = .error errMsg)
    (hAB : ∀ p ∈ A ++ B, attemptsDownload p = true →
      ∃ b, env.download (rawRegular p) = .ok b) :
    ∃ photos details evs,
      searchInvoke params env
        = Msg.text ("Found " ++ toString t ++ " photos for "
            ++ searchParamsText (pyGet params "query") (pyGet params "orientation")
                (pyGet params "color")
            ++ ". Showing " ++ toString (A ++ pf :: B).length ++ " results.")
          :: evs
          ++ [Msg.json (searchResultJson photos (.int t)
                (pyGetD data "total_pages" (.int 0)) (pyGet params "query")
                (min (pyToInt (pyGetD params "per_page" (.int 10))) 30)
                (pyGet params "orientation") (pyGet params "color") details),
              Msg.var "photos" (.list photos),
              Msg.var "photo_details" (.list details),
              Msg.var "total_results" (.int t)]
        ∧ photos.length = (A ++ pf :: B).length
        ∧ details.length < (A ++ pf :: B).length
        ∧ evs.filter Msg.isText = [Msg.text ("Failed to process image: " ++ errMsg)] := by
  have hl : (A ++ pf :: B) ≠ [] := by simp
  have heq := searchInvoke_results params env data (A ++ pf :: B) t hval hresp hres
    hl htot ht hsafe
  refine ⟨(A ++ pf :: B).map recordOf,
    (A ++ pf :: B).filterMap (photoDetailOpt "unsplash_" env.download),
    (A ++ pf :: B).flatMap (photoEvents "unsplash_" env.download),
    heq, by simp, ?_, ?_⟩
  · have hpfd : photoDetailOpt "unsplash_" env.download pf = Option.none :=
      (photoEvents_fail hpf hpfe).2
    simp only [List.filterMap_append, List.filterMap_cons, hpfd, List.length_append,
      List.length_append, List.length_cons]
    have hA := List.length_filterMap_le (photoDetailOpt "unsplash_" env.download) A
    have hB := List.length_filterMap_le (photoDetailOpt "unsplash_" env.download) B
    omega
  · have hAn : ∀ p ∈ A, (photoEvents "unsplash_" env.download p).filter Msg.isText = [] := by
      intro p hp
      exact photoEvents_noText (hsafe p (by simp [hp]))
        (hAB p (by simp [hp]))
    have hBn : ∀ p ∈ B, (photoEvents "unsplash_" env.download p).filter Msg.isText = [] := by
      intro p hp
      exact photoEvents_noText (hsafe p (by simp [hp]))
        (hAB p (by simp [hp]))
    rw [List.flatMap_append, List.flatMap_cons, List.filter_append, List.filter_append,
      flatMap_filter_text_nil hAn, flatMap_filter_text_nil hBn,
      (photoEvents_fail hpf hpfe).1]
    rfl

/-- Witness for C4: one photo, whose download fails. -/
theorem claim_c4_one_download_failure_witness :
    attemptsDownload pfW = true
      ∧ ∃ photos details evs,
          searchInvoke [("query", .str "cats")] envW
            = Msg.text "Found 1 photos for query='cats'. Showing 1 results."
              :: evs
              ++ [Msg.json (searchResultJson photos (.int 1) (.int 0) (.str "cats")
                    10 PyVal.none PyVal.none details),
                  Msg.var "photos" (.list photos),
                  Msg.var "photo_details" (.list details),
                  Msg.var "total_results" (.int 1)]
            ∧ photos.length = 1
            ∧ details.length < 1
            ∧ evs.filter Msg.isText = [Msg.text "Failed to process image: boom"] :=
  ⟨by rfl, claim_c4_one_download_failure [("query", .str "cats")] envW dataW [] [] pfW
    1 "boom" (by rfl) rfl rfl rfl (by decide) (by decide) (by rfl) rfl (by simp)⟩

/-- C9 (end-to-end example): query `"mountains"`, `per_page = 2`,
upstream `total = 57` with two results both holding a valid `regular` URL
and both downloads succeeding, yields the summary text
`Found 57 photos for query='mountains'. Showing 2 results.`, exactly two
blob events, and exactly one JSON event, whose `photos` list has length
2, whose `photo_details` list has length 2 and whose `total` is 57. -/
theorem claim_c9_end_to_end :
    (searchInvoke paramsC9 envC9).head?
        = some (.text "Found 57 photos for query='mountains'. Showing 2 results.")
      ∧ ((searchInvoke paramsC9 envC9).filter Msg.isBlob).length = 2
      ∧ (jsonPayloads (searchInvoke paramsC9 envC9)).length = 1
      ∧ listLen (recGet ((jsonPayloads (searchInvoke paramsC9 envC9)).headD PyVal.none)
          "photos") = 2
      ∧ listLen (recGet ((jsonPayloads (searchInvoke paramsC9 envC9)).headD PyVal.none)
          "photo_details") = 2
      ∧ recGet ((jsonPayloads (searchInvoke paramsC9 envC9)).headD PyVal.none) "total"
        = PyVal.int 57 :=
  ⟨rfl, rfl, rfl, rfl, rfl, rfl⟩
